import Mathlib

/-!
Verification development for the OpenDP FFI boundary layer: the type-erasure
container of `opendp-ffi/src/data.rs` and the Gaussian-mechanism constructor
of `src/measurements/gaussian/ffi.rs`, shallowly embedded in Lean 4.
-/

namespace OpenDP

/-- Structured runtime type descriptor. Mirrors the canonical type-name
grammar (base identifier plus optional bracketed generic arguments) used by
`Type` in the FFI utility layer. -/
inductive Ty where
  | u8 | u16 | u32 | u64 | usize
  | i8 | i16 | i32 | i64
  | f32 | f64
  | bool
  | string
  | column
  | vec (t : Ty)
  | hashMap (k v : Ty)
  | boxT (t : Ty)
  | pair (a b : Ty)
  | atomDomain (t : Ty)
  | vectorDomain (t : Ty)
  | absoluteDistance (t : Ty)
  | l2Distance (t : Ty)
  | zeroConcentratedDivergence (t : Ty)
  | maxDivergence (t : Ty)
  deriving DecidableEq

/-- Canonical name string of a descriptor, as used in diagnostic messages. -/
def Ty.descriptor : Ty → String
  | .u8 => "u8"
  | .u16 => "u16"
  | .u32 => "u32"
  | .u64 => "u64"
  | .usize => "usize"
  | .i8 => "i8"
  | .i16 => "i16"
  | .i32 => "i32"
  | .i64 => "i64"
  | .f32 => "f32"
  | .f64 => "f64"
  | .bool => "bool"
  | .string => "String"
  | .column => "Column"
  | .vec t => "Vec<" ++ t.descriptor ++ ">"
  | .hashMap k v => "HashMap<" ++ k.descriptor ++ ", " ++ v.descriptor ++ ">"
  | .boxT t => "Box<" ++ t.descriptor ++ ">"
  | .pair a b => "(" ++ a.descriptor ++ ", " ++ b.descriptor ++ ")"
  | .atomDomain t => "AtomDomain<" ++ t.descriptor ++ ">"
  | .vectorDomain t => "VectorDomain<" ++ t.descriptor ++ ">"
  | .absoluteDistance t => "AbsoluteDistance<" ++ t.descriptor ++ ">"
  | .l2Distance t => "L2Distance<" ++ t.descriptor ++ ">"
  | .zeroConcentratedDivergence t => "ZeroConcentratedDivergence<" ++ t.descriptor ++ ">"
  | .maxDivergence t => "MaxDivergence<" ++ t.descriptor ++ ">"

/-- Modelled from the spec: the fixed classification set of floating types
(the dispatch shortcut written `@floats`); the classification tables
themselves live outside src. -/
def floats : List Ty := [.f32, .f64]

/-- Modelled from the spec: the fixed classification set of integer types
(the dispatch shortcut written `@integers`). -/
def integers : List Ty := [.u8, .u16, .u32, .u64, .usize, .i8, .i16, .i32, .i64]

/-- Modelled from the spec: the fixed classification set of numeric types
(the dispatch shortcut written `@numbers`). -/
def numbers : List Ty := floats ++ integers

/-- Error taxonomy of the result envelope, following the structured error
kinds of the spec; `FFI` is the kind used by the inline validation errors of
the Gaussian constructor. -/
inductive ErrKind where
  | FFI
  | TypeMismatch
  | UnsupportedCombination
  | UnsupportedType
  | IncompatibleMetricSpace
  | InvalidArgument
  deriving DecidableEq

/-- A structured error: a kind plus the type names it reports. -/
structure Err where
  kind : ErrKind
  context : List String
  deriving DecidableEq

/-- Modelled from the spec: `Type::get_atom` (utility layer, not in src)
recovers the atomic type from a descriptor by unwrapping unary generic
containers; descriptors with no single atom fail. -/
def Ty.get_atom : Ty → Except Err Ty
  | .vec t => t.get_atom
  | .boxT t => t.get_atom
  | .atomDomain t => t.get_atom
  | .vectorDomain t => t.get_atom
  | .absoluteDistance t => t.get_atom
  | .l2Distance t => t.get_atom
  | .zeroConcentratedDivergence t => t.get_atom
  | .maxDivergence t => t.get_atom
  | .hashMap k v => .error ⟨.InvalidArgument, [(Ty.hashMap k v).descriptor]⟩
  | .pair a b => .error ⟨.InvalidArgument, [(Ty.pair a b).descriptor]⟩
  | t => .ok t

/-- A concrete value crossing the boundary. Primitive payloads that the
claims inspect are carried exactly; the remaining supported types carry their
descriptor and an uninterpreted debug representation. -/
inductive Value where
  | f64V (x : ℚ)
  | u32V (n : ℕ)
  | strV (s : String)
  | pairF64 (eps del : ℚ)
  | erased (t : Ty) (debugStr : String)
  deriving DecidableEq

/-- The compile-time type of a value, as a descriptor. -/
def Value.tyOf : Value → Ty
  | .f64V _ => .f64
  | .u32V _ => .u32
  | .strV _ => .string
  | .pairF64 _ _ => .pair .f64 .f64
  | .erased t _ => t

/-- Total diagnostic formatter standing in for the derived Debug
representation used by `opendp_data__to_string`. -/
def Value.debugFormat : Value → String
  | .f64V x => reprStr x
  | .u32V n => reprStr n
  | .strV s => s
  | .pairF64 e d => "(" ++ reprStr e ++ ", " ++ reprStr d ++ ")"
  | .erased _ s => s

/-- The type-erasure container: an owned value together with its runtime
type descriptor (`FfiObject` of the FFI core). -/
structure FfiObject where
  type_ : Ty
  value : Value
  deriving DecidableEq

/-- Modelled from the spec: `FfiObject::new` (FFI core, not in src) wraps a
value behind its true compile-time descriptor; wrapping always succeeds. -/
def FfiObject.new (v : Value) : FfiObject :=
  ⟨v.tyOf, v⟩

/-- Modelled from the spec: `FfiObject::as_ref` (FFI core, not in src)
borrows the wrapped value at a requested descriptor; it fails with
`TypeMismatch` when the requested descriptor differs from the stored one and
never reinterprets the stored bytes. -/
def FfiObject.as_ref (this : FfiObject) (t : Ty) : Except Err Value :=
  if t = this.type_ then .ok this.value
  else .error ⟨.TypeMismatch, [t.descriptor, this.type_.descriptor]⟩

/-- `opendp_data__from_f64`: wrap an f64 into an erased handle. -/
def opendp_data__from_f64 (p : ℚ) : FfiObject :=
  FfiObject.new (.f64V p)

/-- `opendp_data__to_f64`: borrow the handle's value back as an f64. -/
def opendp_data__to_f64 (this : FfiObject) : Except Err ℚ :=
  match this.as_ref .f64 with
  | .error e => .error e
  | .ok (.f64V x) => .ok x
  | .ok _ => .error ⟨.TypeMismatch, [this.type_.descriptor]⟩

/-- `opendp_data__distance_hamming`: wrap a u32 distance. -/
def opendp_data__distance_hamming (d : ℕ) : FfiObject :=
  FfiObject.new (.u32V d)

/-- `opendp_data__distance_smoothed_max_divergence`: wrap an (f64, f64)
privacy-parameter pair. -/
def opendp_data__distance_smoothed_max_divergence (eps del : ℚ) : FfiObject :=
  FfiObject.new (.pairF64 eps del)

/-- `opendp_data__from_string`: wrap an owned string. -/
def opendp_data__from_string (s : String) : FfiObject :=
  FfiObject.new (.strV s)

/-- The closed dispatch set of `opendp_data__to_string`, transcribed from
the literal candidate list in data.rs. -/
def supportedDescribeTys : List Ty :=
  [.u32, .u64, .i32, .i64, .f32, .f64, .bool, .string, .u8, .column,
   .vec .u32, .vec .u64, .vec .i32, .vec .i64, .vec .f32, .vec .f64,
   .vec .bool, .vec .string, .vec .u8, .vec .column, .vec (.vec .string),
   .hashMap .string .column,
   .pair (.boxT .i32) (.boxT .f64),
   .pair (.boxT .i32) (.boxT .u32),
   .pair (.boxT (.pair (.boxT .f64) (.boxT .f64))) (.boxT .f64)]

/-- `opendp_data__to_string`: dispatch over the closed set of supported
descriptors; on a match, borrow at the matched type and format; on no match,
fail with an unsupported-type error instead of crashing. -/
def opendp_data__to_string (this : FfiObject) : Except Err String :=
  if this.type_ ∈ supportedDescribeTys then
    match this.as_ref this.type_ with
    | .error e => .error e
    | .ok v => .ok v.debugFormat
  else
    .error ⟨.UnsupportedType, [this.type_.descriptor]⟩

/-- An erased input-domain handle (`AnyDomain`): its runtime descriptor. -/
structure AnyDomain where
  type_ : Ty
  deriving DecidableEq

/-- An erased input-metric handle (`AnyMetric`): its runtime descriptor and
the associated distance type it carries. -/
structure AnyMetric where
  type_ : Ty
  distance_type : Ty
  deriving DecidableEq

/-- The raw scale payload of the boundary call: untyped bytes, modelled by
the value they decode to when reinterpreted at each numeric type. -/
structure RawScale where
  readAt : Ty → ℚ

/-- Rounding up to the dyadic grid of denominator two to the p. -/
def roundUpDyadic (p : ℕ) (q : ℚ) : ℚ :=
  (Int.ceil (q * 2 ^ p) : ℚ) / 2 ^ p

/-- Fractional precision of a floating descriptor. -/
def precOf : Ty → ℕ
  | .f32 => 23
  | .f64 => 52
  | _ => 0

/-- Modelled from the spec: the `InfCast` conversion from the metric's
distance type QI into the measure's distance type QO (trait impls not in
src). Between identical types it is the identity; otherwise it rounds up
onto the dyadic grid of the floating target, never understating. -/
def gaussCast (QI QO : Ty) : ℚ → ℚ :=
  if QI = QO then id else roundUpDyadic (precOf QO)

/-- A constructed Gaussian measurement: the descriptors it captures, the
scale it was built from, the type at which the raw scale payload was read,
the QI-to-QO distance cast of its privacy map, and the expected value of
invoking it (the noise is mean preserving). -/
structure Measurement where
  inDomainTy : Ty
  inMetricTy : Ty
  outMeasureTy : Ty
  scaleReadTy : Ty
  scale : ℚ
  castDist : ℚ → ℚ
  invokeExpected : ℤ → ℤ

/-- Modelled from the spec: `BaseDiscreteGaussianDomain::InputMetric` (trait
not in src) — the metric type the Gaussian builder requires for a given
domain shape: absolute distance for atom domains, L2 distance for vector
domains, at the given distance type. -/
def gaussianInputMetric (D q : Ty) : Ty :=
  match D with
  | .vectorDomain _ => .l2Distance q
  | _ => .absoluteDistance q

/-- Modelled from the spec: the registered valid metric-space pairings
relevant to the Gaussian builder (`MetricSpace` impls not in src). -/
def validMetricSpace : Ty → Ty → Bool
  | .atomDomain t, .absoluteDistance q => decide (t ∈ numbers) && decide (q ∈ numbers)
  | .vectorDomain (.atomDomain t), .l2Distance q => decide (t ∈ numbers) && decide (q ∈ numbers)
  | _, _ => false

/-- Modelled from the spec: the `make_gaussian` library builder (not in
src). It verifies the (domain, metric) pairing is a registered metric space
and then produces a Measurement whose noise is mean preserving and whose
privacy map casts QI distances into QO by an inflation cast. -/
def make_gaussian (D M QI QO : Ty) (scaleVal : ℚ) (readTy : Ty) : Except Err Measurement :=
  if validMetricSpace D M then
    .ok { inDomainTy := D, inMetricTy := M,
          outMeasureTy := .zeroConcentratedDivergence QO,
          scaleReadTy := readTy, scale := scaleVal,
          castDist := gaussCast QI QO, invokeExpected := id }
  else
    .error ⟨.IncompatibleMetricSpace, [D.descriptor, M.descriptor]⟩

/-- The inner `monomorphize2` of both branches: downcast the domain handle
at D, downcast the metric handle at D's Gaussian input metric, then call the
builder. A failed downcast is a type mismatch naming both descriptors. -/
def monomorphize2 (D QI QO : Ty) (input_domain : AnyDomain) (input_metric : AnyMetric)
    (scaleVal : ℚ) (readTy : Ty) : Except Err Measurement :=
  if input_domain.type_ = D then
    if input_metric.type_ = gaussianInputMetric D QI then
      make_gaussian D (gaussianInputMetric D QI) QI QO scaleVal readTy
    else
      .error ⟨.TypeMismatch, [input_metric.type_.descriptor, (gaussianInputMetric D QI).descriptor]⟩
  else
    .error ⟨.TypeMismatch, [input_domain.type_.descriptor, D.descriptor]⟩

/-- `monomorphize_float`: read the scale payload at T, then dispatch D over
the candidates AtomDomain T and VectorDomain (AtomDomain T) and MO over the
single candidate ZeroConcentratedDivergence T. -/
def monomorphize_float (T : Ty) (input_domain : AnyDomain) (input_metric : AnyMetric)
    (scale : RawScale) (MO : Ty) : Except Err Measurement :=
  let D := input_domain.type_
  let scaleVal := scale.readAt T
  if (D = .atomDomain T ∨ D = .vectorDomain (.atomDomain T)) ∧
      MO = .zeroConcentratedDivergence T then
    monomorphize2 D T T input_domain input_metric scaleVal T
  else
    .error ⟨.UnsupportedCombination, [D.descriptor, MO.descriptor]⟩

/-- `monomorphize_integer`: read the scale payload at QO, then dispatch D
over the candidates AtomDomain T and VectorDomain (AtomDomain T), MO over
the single candidate ZeroConcentratedDivergence QO, and QI over itself. -/
def monomorphize_integer (T QI QO : Ty) (input_domain : AnyDomain) (input_metric : AnyMetric)
    (scale : RawScale) (MO : Ty) : Except Err Measurement :=
  let D := input_domain.type_
  let scaleVal := scale.readAt QO
  if (D = .atomDomain T ∨ D = .vectorDomain (.atomDomain T)) ∧
      MO = .zeroConcentratedDivergence QO then
    monomorphize2 D QI QO input_domain input_metric scaleVal QO
  else
    .error ⟨.UnsupportedCombination, [D.descriptor, MO.descriptor, QI.descriptor]⟩

/-- `opendp_measurements__make_gaussian`: recover T from the domain
descriptor and QO from the measure descriptor; in the floating branch
require the metric's atomic distance type and QO to equal T exactly before
dispatching on T alone; otherwise dispatch T over the integers, the metric's
distance type over the numbers, and QO over the floats. -/
def opendp_measurements__make_gaussian (input_domain : AnyDomain) (input_metric : AnyMetric)
    (scale : RawScale) (MO : Ty) : Except Err Measurement :=
  match input_domain.type_.get_atom with
  | .error e => .error e
  | .ok T =>
    match MO.get_atom with
    | .error e => .error e
    | .ok QO =>
      if T ∈ floats then
        match input_metric.distance_type.get_atom with
        | .error e => .error e
        | .ok QI =>
          if T ≠ QI then
            .error ⟨.FFI, [QI.descriptor, T.descriptor]⟩
          else if T ≠ QO then
            .error ⟨.FFI, [QO.descriptor, T.descriptor]⟩
          else
            monomorphize_float T input_domain input_metric scale MO
      else
        if T ∈ integers ∧ input_metric.distance_type ∈ numbers ∧ QO ∈ floats then
          monomorphize_integer T input_metric.distance_type QO input_domain input_metric scale MO
        else
          .error ⟨.UnsupportedCombination,
            [T.descriptor, input_metric.distance_type.descriptor, QO.descriptor]⟩

/-- Process state visible at the boundary: the count of live result
allocations handed to callers. -/
structure World where
  allocated : ℕ
  deriving DecidableEq

/-- The boundary envelope of the Gaussian constructor: a successful build is
wrapped into a freshly allocated result handle; an error is returned in the
envelope with no result allocation. -/
def makeGaussianAtBoundary (w : World) (input_domain : AnyDomain) (input_metric : AnyMetric)
    (scale : RawScale) (MO : Ty) : Except Err Measurement × World :=
  match opendp_measurements__make_gaussian input_domain input_metric scale MO with
  | .ok m => (.ok m, ⟨w.allocated + 1⟩)
  | .error e => (.error e, w)

/-- Example input: a domain handle over 32-bit integers. -/
def domI32 : AnyDomain := ⟨.atomDomain .i32⟩

/-- Example input: an absolute-distance metric handle with 32-bit-integer
distance type. -/
def metI32 : AnyMetric := ⟨.absoluteDistance .i32, .i32⟩

/-- Example input: a domain handle over 64-bit floats. -/
def domF64 : AnyDomain := ⟨.atomDomain .f64⟩

/-- Example input: an absolute-distance metric handle with 32-bit-float
distance type. -/
def metF32 : AnyMetric := ⟨.absoluteDistance .f32, .f32⟩

/-- Example input: a raw scale payload that reads as 0 when reinterpreted as
f64 and as 7 at every other type. -/
def scalePayload : RawScale := ⟨fun t => if t = .f64 then 0 else 7⟩

/-- Example input: the requested measure descriptor
ZeroConcentratedDivergence over f64. -/
def moZCDf64 : Ty := .zeroConcentratedDivergence .f64

/-- The measurement produced by the constructor on the example integer-branch
inputs above. -/
def gaussEx : Measurement :=
  { inDomainTy := .atomDomain .i32, inMetricTy := .absoluteDistance .i32,
    outMeasureTy := .zeroConcentratedDivergence .f64, scaleReadTy := .f64,
    scale := scalePayload.readAt .f64, castDist := gaussCast .i32 .f64,
    invokeExpected := id }

/-- Example handle wrapping the f64 value 3. -/
def objF64 : FfiObject := opendp_data__from_f64 3

/-- Example handle whose descriptor is outside the describe dispatch set. -/
def objBad : FfiObject := FfiObject.new (.erased (.atomDomain .f64) "AtomDomain")

/-- The cast from QI into QO distances never understates its argument. -/
theorem gaussCast_le (QI QO : Ty) (q : ℚ) : q ≤ gaussCast QI QO q := by
  unfold gaussCast
  split
  · exact le_refl q
  · unfold roundUpDyadic
    have h2 : (0:ℚ) < 2 ^ precOf QO := by positivity
    rw [le_div_iff₀ h2]
    exact Int.le_ceil _

/-- No descriptor is classified both as an integer and as a float. -/
theorem integers_disjoint_floats (t : Ty) (h : t ∈ integers) : t ∉ floats := by
  fin_cases h <;> decide

/-- Inversion for the builder: a successful build fixes every field of the
resulting measurement. -/
theorem make_gaussian_ok {D M QI QO : Ty} {sv : ℚ} {rt : Ty} {m : Measurement}
    (h : make_gaussian D M QI QO sv rt = .ok m) :
    m.inDomainTy = D ∧ m.inMetricTy = M ∧
    m.outMeasureTy = .zeroConcentratedDivergence QO ∧
    m.scaleReadTy = rt ∧ m.scale = sv ∧
    m.castDist = gaussCast QI QO ∧ m.invokeExpected = id := by
  unfold make_gaussian at h
  split at h
  · injection h with h
    subst h
    exact ⟨rfl, rfl, rfl, rfl, rfl, rfl, rfl⟩
  · exact Except.noConfusion h

/-- Inversion for the inner dispatch target. -/
theorem monomorphize2_ok {D QI QO : Ty} {d : AnyDomain} {mtr : AnyMetric} {sv : ℚ} {rt : Ty}
    {m : Measurement} (h : monomorphize2 D QI QO d mtr sv rt = .ok m) :
    m.castDist = gaussCast QI QO ∧ m.invokeExpected = id ∧ m.scaleReadTy = rt := by
  unfold monomorphize2 at h
  split at h
  · split at h
    · obtain ⟨_, _, _, hrt, _, hc, hi⟩ := make_gaussian_ok h
      exact ⟨hc, hi, hrt⟩
    · exact Except.noConfusion h
  · exact Except.noConfusion h

/-- Inversion for the floating branch: success pins the domain shape, the
measure descriptor, and the scale-read type T. -/
theorem monomorphize_float_ok {T : Ty} {d : AnyDomain} {mtr : AnyMetric} {sc : RawScale}
    {MO : Ty} {m : Measurement} (h : monomorphize_float T d mtr sc MO = .ok m) :
    (d.type_ = .atomDomain T ∨ d.type_ = .vectorDomain (.atomDomain T)) ∧
    MO = .zeroConcentratedDivergence T ∧
    m.castDist = gaussCast T T ∧ m.invokeExpected = id ∧ m.scaleReadTy = T := by
  simp only [monomorphize_float] at h
  split at h
  · rename_i hc
    obtain ⟨h1, h2, h3⟩ := monomorphize2_ok h
    exact ⟨hc.1, hc.2, h1, h2, h3⟩
  · exact Except.noConfusion h

/-- Inversion for the integer branch: success pins the domain shape, the
measure descriptor, and the scale-read type QO. -/
theorem monomorphize_integer_ok {T QI QO : Ty} {d : AnyDomain} {mtr : AnyMetric}
    {sc : RawScale} {MO : Ty} {m : Measurement}
    (h : monomorphize_integer T QI QO d mtr sc MO = .ok m) :
    (d.type_ = .atomDomain T ∨ d.type_ = .vectorDomain (.atomDomain T)) ∧
    MO = .zeroConcentratedDivergence QO ∧
    m.castDist = gaussCast QI QO ∧ m.invokeExpected = id ∧ m.scaleReadTy = QO := by
  simp only [monomorphize_integer] at h
  split at h
  · rename_i hc
    obtain ⟨h1, h2, h3⟩ := monomorphize2_ok h
    exact ⟨hc.1, hc.2, h1, h2, h3⟩
  · exact Except.noConfusion h

/-- Master inversion for the constructor: a successful construction recovers
atomic types for the domain and the measure, a domain descriptor of one of
the two supported shapes, a ZeroConcentratedDivergence measure parameterized
by T (floating branch) or QO (integer branch), a privacy map built on the
QI-to-QO cast, mean-preserving noise, and the type at which the raw scale
payload was read. -/
theorem makeGaussian_ok {d : AnyDomain} {mtr : AnyMetric} {sc : RawScale} {MO : Ty}
    {m : Measurement} (h : opendp_measurements__make_gaussian d mtr sc MO = .ok m) :
    ∃ T QO, d.type_.get_atom = .ok T ∧ MO.get_atom = .ok QO ∧
      (d.type_ = .atomDomain T ∨ d.type_ = .vectorDomain (.atomDomain T)) ∧
      MO = .zeroConcentratedDivergence (if T ∈ floats then T else QO) ∧
      (∃ QI2 QO2, m.castDist = gaussCast QI2 QO2) ∧
      m.invokeExpected = id ∧
      m.scaleReadTy = (if T ∈ floats then T else QO) := by
  unfold opendp_measurements__make_gaussian at h
  split at h
  · exact Except.noConfusion h
  next T hT =>
    split at h
    · exact Except.noConfusion h
    next QO hQO =>
      by_cases hf : T ∈ floats
      · rw [if_pos hf] at h
        split at h
        · exact Except.noConfusion h
        next QI hQI =>
          split at h
          · exact Except.noConfusion h
          · split at h
            · exact Except.noConfusion h
            · obtain ⟨hD, hMO, hc, hi, hrt⟩ := monomorphize_float_ok h
              refine ⟨T, QO, hT, hQO, hD, ?_, ⟨T, T, hc⟩, hi, ?_⟩
              · rw [if_pos hf]
                exact hMO
              · rw [if_pos hf]
                exact hrt
      · rw [if_neg hf] at h
        split at h
        · obtain ⟨hD, hMO, hc, hi, hrt⟩ := monomorphize_integer_ok h
          refine ⟨T, QO, hT, hQO, hD, ?_, ⟨mtr.distance_type, QO, hc⟩, hi, ?_⟩
          · rw [if_neg hf]
            exact hMO
          · rw [if_neg hf]
            exact hrt
        · exact Except.noConfusion h

/-- Claim C1: when the input domain's atomic type T is a floating type,
construction fails, for every scale, whenever the metric's atomic distance
type QI or the measure's parameter type QO differs from T; the error names
the offending type name together with T, and no measurement is built. -/
theorem C1_float_strictness (dom : AnyDomain) (mtr : AnyMetric) (sc : RawScale)
    (MO T QO QI : Ty)
    (h1 : dom.type_.get_atom = .ok T) (h2 : MO.get_atom = .ok QO)
    (h3 : mtr.distance_type.get_atom = .ok QI)
    (hT : T ∈ floats) (hne : QI ≠ T ∨ QO ≠ T) :
    ∃ e, opendp_measurements__make_gaussian dom mtr sc MO = .error e ∧
      T.descriptor ∈ e.context ∧
      (e.context = [QI.descriptor, T.descriptor] ∨
        e.context = [QO.descriptor, T.descriptor]) := by
  simp only [opendp_measurements__make_gaussian, h1, h2, h3]
  rw [if_pos hT]
  by_cases hQI : QI = T
  · subst hQI
    rcases hne with hne | hne
    · exact absurd rfl hne
    · rw [if_neg (fun hh => hh rfl), if_pos (Ne.symm hne)]
      exact ⟨_, rfl, by simp, Or.inr rfl⟩
  · rw [if_pos (Ne.symm hQI)]
    exact ⟨_, rfl, by simp, Or.inl rfl⟩

/-- Claim C1 witness: with an f64 domain and an f32 metric distance type the
constructor fails and names both type names. -/
theorem C1_float_strictness_holds :
    ∃ e, opendp_measurements__make_gaussian domF64 metF32 scalePayload moZCDf64 = .error e ∧
      Ty.f64.descriptor ∈ e.context ∧
      (e.context = [Ty.f32.descriptor, Ty.f64.descriptor] ∨
        e.context = [Ty.f64.descriptor, Ty.f64.descriptor]) :=
  C1_float_strictness domF64 metF32 scalePayload moZCDf64 .f64 .f64 .f32
    rfl rfl rfl (by decide) (Or.inl (by decide))

/-- Claim C2 counterexample: on an i32 domain with an absolute-distance i32
metric and measure ZeroConcentratedDivergence over f64, construction
succeeds but the raw scale payload is reinterpreted at f64, not at the
domain's atomic type i32: the payload decodes to 7 at i32, yet the built
measurement carries scale 0, the f64 reading. -/
theorem C2_scale_read_counterexample :
    domI32.type_.get_atom = Except.ok Ty.i32 ∧
    scalePayload.readAt Ty.i32 = 7 ∧
    ∃ m, opendp_measurements__make_gaussian domI32 metI32 scalePayload moZCDf64 = .ok m ∧
      m.scaleReadTy = Ty.f64 ∧ m.scaleReadTy ≠ Ty.i32 ∧ m.scale = 0 := by
  refine ⟨rfl, rfl, gaussEx, rfl, rfl, by decide, rfl⟩

/-- Claim C2 amended: the raw scale payload is interpreted at the domain's
atomic type T in the floating branch, but at the measure's parameter type QO
in the integer branch. -/
theorem C2_scale_read_amended (dom : AnyDomain) (mtr : AnyMetric) (sc : RawScale)
    (MO T QO : Ty) (m : Measurement)
    (h1 : dom.type_.get_atom = .ok T) (h2 : MO.get_atom = .ok QO)
    (h : opendp_measurements__make_gaussian dom mtr sc MO = .ok m) :
    m.scaleReadTy = (if T ∈ floats then T else QO) := by
  obtain ⟨T2, QO2, hT2, hQO2, _, _, _, _, hrt⟩ := makeGaussian_ok h
  have eT : T = T2 := by
    have e := h1.symm.trans hT2
    injection e
  have eQ : QO = QO2 := by
    have e := h2.symm.trans hQO2
    injection e
  subst eT
  subst eQ
  exact hrt

/-- Claim C2 amended witness: on the example integer-branch inputs the scale
payload is read at f64, the measure's parameter type. -/
theorem C2_scale_read_amended_holds :
    gaussEx.scaleReadTy = (if Ty.i32 ∈ floats then Ty.i32 else Ty.f64) :=
  C2_scale_read_amended domI32 metI32 scalePayload moZCDf64 .i32 .f64 gaussEx rfl rfl rfl

/-- Claim C3: borrowing a handle at a descriptor different from the one
stored at wrap time always fails with a TypeMismatch error and never yields
a value; in particular to_f64 on a handle not wrapping an f64 fails with a
TypeMismatch error instead of misinterpreting the stored value. -/
theorem C3_downcast_mismatch_fails (this : FfiObject) (t : Ty) :
    (t ≠ this.type_ →
      this.as_ref t = .error ⟨.TypeMismatch, [t.descriptor, this.type_.descriptor]⟩) ∧
    (this.type_ ≠ .f64 →
      ∃ e, opendp_data__to_f64 this = .error e ∧ e.kind = .TypeMismatch) := by
  constructor
  · intro h
    unfold FfiObject.as_ref
    rw [if_neg h]
  · intro h
    unfold opendp_data__to_f64 FfiObject.as_ref
    rw [if_neg (fun hh => h hh.symm)]
    exact ⟨_, rfl, rfl⟩

/-- Claim C3 witness: borrowing an f64 handle at u32 fails TypeMismatch, and
to_f64 on a string handle fails TypeMismatch. -/
theorem C3_downcast_mismatch_fails_holds :
    (opendp_data__from_f64 1).as_ref .u32 =
      .error ⟨.TypeMismatch, [Ty.u32.descriptor, (opendp_data__from_f64 1).type_.descriptor]⟩ ∧
    ∃ e, opendp_data__to_f64 (opendp_data__from_string "x") = .error e ∧
      e.kind = .TypeMismatch :=
  ⟨(C3_downcast_mismatch_fails (opendp_data__from_f64 1) .u32).1 (by decide),
   (C3_downcast_mismatch_fails (opendp_data__from_string "x") .u32).2 (by decide)⟩

/-- Claim C4: when the input domain's atomic type T is an integer type and
the requested measure parameter type QO is not a floating type, construction
fails with an unsupported-combination error, for every metric and every
scale. -/
theorem C4_integer_requires_float_measure (dom : AnyDomain) (mtr : AnyMetric) (sc : RawScale)
    (MO T QO : Ty)
    (h1 : dom.type_.get_atom = .ok T) (h2 : MO.get_atom = .ok QO)
    (hT : T ∈ integers) (hQO : QO ∉ floats) :
    ∃ e, opendp_measurements__make_gaussian dom mtr sc MO = .error e ∧
      e.kind = .UnsupportedCombination := by
  have hTf : T ∉ floats := integers_disjoint_floats T hT
  simp only [opendp_measurements__make_gaussian, h1, h2]
  rw [if_neg hTf, if_neg (fun hc => hQO hc.2.2)]
  exact ⟨_, rfl, rfl⟩

/-- Claim C4 witness: an i32 domain with requested measure parameter type
i64 fails with an unsupported-combination error. -/
theorem C4_integer_requires_float_measure_holds :
    ∃ e, opendp_measurements__make_gaussian domI32 metI32 scalePayload
        (.zeroConcentratedDivergence .i64) = .error e ∧
      e.kind = .UnsupportedCombination :=
  C4_integer_requires_float_measure domI32 metI32 scalePayload
    (.zeroConcentratedDivergence .i64) .i32 .i64 rfl rfl (by decide) (by decide)

/-- Claim C5: on a 32-bit-integer domain, a metric with 32-bit-integer
distance type, and requested measure parameter type f64, construction
succeeds and invoking the resulting measurement on 99 has expected value
99. -/
theorem C5_integer_success_mean_preserving :
    ∃ m, opendp_measurements__make_gaussian domI32 metI32 scalePayload moZCDf64 = .ok m ∧
      m.invokeExpected 99 = 99 :=
  ⟨gaussEx, rfl, rfl⟩

/-- Claim C6: describe succeeds on every handle whose descriptor is in the
fixed supported set and fails with an unsupported-type error, rather than
crashing, on every handle whose descriptor is outside it. -/
theorem C6_describe_exhaustive (this : FfiObject) :
    (this.type_ ∈ supportedDescribeTys → ∃ s, opendp_data__to_string this = .ok s) ∧
    (this.type_ ∉ supportedDescribeTys →
      opendp_data__to_string this = .error ⟨.UnsupportedType, [this.type_.descriptor]⟩) := by
  constructor
  · intro hmem
    unfold opendp_data__to_string FfiObject.as_ref
    rw [if_pos hmem, if_pos rfl]
    exact ⟨_, rfl⟩
  · intro hmem
    unfold opendp_data__to_string
    rw [if_neg hmem]

/-- Claim C6 witness: describe succeeds on an f64 handle and fails with an
unsupported-type error on a handle of unregistered descriptor. -/
theorem C6_describe_exhaustive_holds :
    (∃ s, opendp_data__to_string objF64 = .ok s) ∧
    opendp_data__to_string objBad = .error ⟨.UnsupportedType, [objBad.type_.descriptor]⟩ :=
  ⟨(C6_describe_exhaustive objF64).1 (by decide),
   (C6_describe_exhaustive objBad).2 (by decide)⟩

/-- Claim C7: wrapping any supported value and borrowing it back at the
matching descriptor returns the original value; in particular to_f64 after
from_f64 is the identity on every f64. -/
theorem C7_wrap_borrow_roundtrip :
    (∀ v : Value, (FfiObject.new v).as_ref v.tyOf = .ok v) ∧
    (∀ p : ℚ, opendp_data__to_f64 (opendp_data__from_f64 p) = .ok p) := by
  constructor
  · intro v
    unfold FfiObject.new FfiObject.as_ref
    rw [if_pos rfl]
  · intro p
    rfl

/-- Claim C8: whenever the constructor returns an error at the boundary, no
result handle is allocated and the process state is returned unchanged; no
measurement is handed out. -/
theorem C8_error_is_side_effect_free (w : World) (dom : AnyDomain) (mtr : AnyMetric)
    (sc : RawScale) (MO : Ty) (e : Err)
    (h : (makeGaussianAtBoundary w dom mtr sc MO).1 = .error e) :
    (makeGaussianAtBoundary w dom mtr sc MO).2 = w ∧
    ∀ m, (makeGaussianAtBoundary w dom mtr sc MO).1 ≠ .ok m := by
  cases hr : opendp_measurements__make_gaussian dom mtr sc MO with
  | ok m =>
    simp only [makeGaussianAtBoundary, hr] at h
    exact Except.noConfusion h
  | error e2 =>
    simp only [makeGaussianAtBoundary, hr]
    exact ⟨trivial, fun m h2 => Except.noConfusion h2⟩

/-- Claim C8 witness: a floating-strictness failure leaves the allocation
state untouched. -/
theorem C8_error_is_side_effect_free_holds :
    (makeGaussianAtBoundary ⟨0⟩ domF64 metF32 scalePayload moZCDf64).2 = ⟨0⟩ ∧
    ∀ m, (makeGaussianAtBoundary ⟨0⟩ domF64 metF32 scalePayload moZCDf64).1 ≠ .ok m :=
  C8_error_is_side_effect_free ⟨0⟩ domF64 metF32 scalePayload moZCDf64
    ⟨.FFI, [Ty.f32.descriptor, Ty.f64.descriptor]⟩ rfl

/-- Claim C9: for every measurement the constructor builds, the cast of its
privacy map from the metric's distance type into the measure's distance type
never understates: every distance value maps to a value at least as
large. -/
theorem C9_inflation_cast_never_understates (dom : AnyDomain) (mtr : AnyMetric)
    (sc : RawScale) (MO : Ty) (m : Measurement)
    (h : opendp_measurements__make_gaussian dom mtr sc MO = .ok m) :
    ∀ q : ℚ, q ≤ m.castDist q := by
  obtain ⟨_, _, _, _, _, _, ⟨QI2, QO2, hc⟩, _, _⟩ := makeGaussian_ok h
  intro q
  rw [hc]
  exact gaussCast_le QI2 QO2 q

/-- Claim C9 witness: on the measurement built from the example
integer-branch inputs, the cast does not understate the distance 1. -/
theorem C9_inflation_cast_never_understates_holds :
    (1 : ℚ) ≤ gaussEx.castDist 1 :=
  C9_inflation_cast_never_understates domI32 metI32 scalePayload moZCDf64 gaussEx rfl 1

/-- Claim C10: construction succeeds only when the requested measure is
ZeroConcentratedDivergence, parameterized by T in the floating branch and by
QO in the integer branch, and the input-domain descriptor is AtomDomain of T
or VectorDomain of AtomDomain of T. -/
theorem C10_success_shape (dom : AnyDomain) (mtr : AnyMetric) (sc : RawScale)
    (MO : Ty) (m : Measurement)
    (h : opendp_measurements__make_gaussian dom mtr sc MO = .ok m) :
    ∃ T QO, dom.type_.get_atom = .ok T ∧ MO.get_atom = .ok QO ∧
      (dom.type_ = .atomDomain T ∨ dom.type_ = .vectorDomain (.atomDomain T)) ∧
      MO = .zeroConcentratedDivergence (if T ∈ floats then T else QO) := by
  obtain ⟨T, QO, hT, hQO, hD, hMO, _, _, _⟩ := makeGaussian_ok h
  exact ⟨T, QO, hT, hQO, hD, hMO⟩

/-- Claim C10 witness: the example integer-branch success has domain shape
AtomDomain of i32 and measure ZeroConcentratedDivergence over f64. -/
theorem C10_success_shape_holds :
    ∃ T QO, domI32.type_.get_atom = .ok T ∧ moZCDf64.get_atom = .ok QO ∧
      (domI32.type_ = .atomDomain T ∨ domI32.type_ = .vectorDomain (.atomDomain T)) ∧
      moZCDf64 = .zeroConcentratedDivergence (if T ∈ floats then T else QO) :=
  C10_success_shape domI32 metI32 scalePayload moZCDf64 gaussEx rfl

end OpenDP
